import Mathlib

/-!
A verification development for the Task_manager scheduling engine.

The Python sources under `src/` are embedded shallowly:

* `datetime` values are integer day numbers (`Date := Int`); day 0 is a
  Monday, so `d % 7` agrees with Python `datetime.weekday()`
  (0 = Monday, …, 6 = Sunday), and `timedelta(days = n)` is integer
  addition.  Every datetime the program manipulates is day-aligned.
* Python floats are modelled as exact rationals (`ℚ`).
* Python objects (tasks, resources) are identified by their integer ids;
  the mutable object heap is a list of records, and mutation of a shared
  object is an id-indexed update of that list.
* Python dict-shaped records (assignments) are fixed-shape structures;
  a dict used as a keyed map (the resource calendar) is an association
  list.  An attribute access on a dict (as opposed to a subscript) is a
  runtime `AttributeError` and is modelled as such.
* Fallible code returns `Except String` with the Python exception kind as
  the message.  `resource.py` and `project_controller.py` use `timedelta`
  without importing it, so the loops of `_update_calendar`,
  `get_utilization`, `find_resource_conflicts` and the start-date shift of
  `level_resources` raise `NameError` the first time they reach it; the
  model returns the error there (the partially mutated object is abandoned
  to the propagating exception, which no engine caller catches).
-/

namespace TaskMgr

/-- From `utils/utilities.py`, `is_working_day`: Monday (0) through Friday (4). -/
def is_working_day (d : Int) : Bool := d % 7 < 5

/-- The list of days `s, s+1, …, e` (empty when `e < s`); the Python sources
walk this range with `while current_date <= end_date`. -/
def dateRange (s e : Int) : List Int :=
  (List.range (e + 1 - s).toNat).map (fun i : Nat => s + (i : Int))

/-- From `utils/utilities.py`, `get_working_days` (also duplicated as
`Task.get_working_days` in `src/models/task.py`): the number of working days
in the inclusive range. -/
def get_working_days (s e : Int) : Nat :=
  ((dateRange s e).filter (fun d => is_working_day d)).length

/-- From `utils/utilities.py`, `add_working_days`: step one calendar day at a
time, counting down `days` on each working day reached. -/
def add_working_days (date : Int) (days : Int) : Int :=
  if h : 0 < days then
    if hw : (date + 1) % 7 < 5 then add_working_days (date + 1) (days - 1)
    else add_working_days (date + 1) days
  else date
termination_by 8 * days.toNat + (7 - date % 7).toNat
decreasing_by
  all_goals omega

/-- Number of working days in the half-open interval `(a, b]`. -/
def countWorking (a b : Int) : Nat :=
  ((dateRange (a + 1) b).filter (fun d => is_working_day d)).length

/-- The dict built in `Task.assign_resource` (`src/models/task.py`): a
fixed-shape record; the `resource` entry holds the Resource object, modelled
by its id. -/
structure Assignment where
  resourceId : Nat
  units : ℚ
  start_date : Int
  end_date : Int
  hours : ℚ
deriving DecidableEq

/-- `src/models/task.py`, class `Task`.  Object references (predecessors,
successors) are ids into the task heap. -/
structure Task where
  id : Nat
  name : String
  duration : Int
  start_date : Option Int
  completion_percentage : ℚ
  priority : Int
  predecessors : List Nat
  successors : List Nat
  assignments : List Assignment
  early_start : Int
  early_finish : Int
  late_start : Int
  late_finish : Int
deriving DecidableEq

/-- `Task.__init__`: fields a fresh task starts with. -/
def Task.mkNew (id : Nat) (name : String) (duration : Int) (start_date : Option Int) : Task :=
  ⟨id, name, duration, start_date, 0, 0, [], [], [], 0, 0, 0, 0⟩

/-- `Task.get_end_date`: `None` when the start date is unset (a `datetime` is
always truthy, `None` falsy), else `start_date + timedelta(days=duration)`. -/
def Task.get_end_date (t : Task) : Option Int :=
  match t.start_date with
  | none => none
  | some s => some (s + t.duration)

/-- `Task.get_float`: `late_start - early_start`. -/
def Task.get_float (t : Task) : Int := t.late_start - t.early_start

/-- `Task.calculate_assignment_hours`: `working_days * 8 * units`. -/
def calculate_assignment_hours (units : ℚ) (s e : Int) : ℚ :=
  (get_working_days s e : ℚ) * 8 * units

/-- `src/models/resource.py`, class `Resource`; `calendar` is the Python dict
`{date: availability}` as an association list (at most one entry per key). -/
structure Resource where
  id : Nat
  name : String
  cost_rate : ℚ
  availability : ℚ
  assignments : List Assignment
  calendar : List (Int × ℚ)
  skills : List String
deriving DecidableEq

/-- Dict lookup in the calendar. -/
def calFind (cal : List (Int × ℚ)) (d : Int) : Option ℚ :=
  (cal.find? (fun e => e.1 == d)).map (fun e => e.2)

/-- `Resource._update_calendar(assignment, remove)`: the loop body seeds,
decays and clamps the calendar entry at `current_date`, but the iteration
step `current_date += timedelta(days=1)` (resource.py line 93) raises
`NameError` — `timedelta` is never imported in resource.py — so every
nonempty range aborts at the end of its first day, the half-mutated object
abandoned to the propagating exception; an empty range skips the loop and
returns with the calendar untouched. -/
def Resource.update_calendar (r : Resource) (a : Assignment) (remove : Bool) :
    Except String Resource :=
  if a.start_date ≤ a.end_date then Except.error "NameError"
  else Except.ok r

/-- `Resource.add_assignment`: append, then decay the calendar — which
raises `NameError` for any nonempty assignment range. -/
def Resource.add_assignment (r : Resource) (a : Assignment) : Except String Resource :=
  Resource.update_calendar { r with assignments := r.assignments ++ [a] } a false

/-- `Resource.remove_assignment`: drop the first equal assignment if present,
then reverse the calendar decay (which raises `NameError` on any nonempty
range); when the assignment is absent nothing happens. -/
def Resource.remove_assignment (r : Resource) (a : Assignment) : Except String Resource :=
  if r.assignments.contains a then
    Resource.update_calendar { r with assignments := r.assignments.erase a } a true
  else Except.ok r

/-- `Resource.get_availability`: the calendar override if present, else the
base availability on weekdays and 0.0 on weekends. -/
def Resource.get_availability (r : Resource) (d : Int) : ℚ :=
  match calFind r.calendar d with
  | some v => v
  | none => if d % 7 < 5 then r.availability else 0

/-- `Resource.get_utilization(start, end)`: the day loop accumulates
available and assigned hours, but its first iteration ends at
`current_date += timedelta(days=1)` (resource.py line 67) and `timedelta`
is not imported in resource.py, so every nonempty range raises `NameError`;
only an empty range (start after end) skips the loop and returns the
guarded ratio 0.0. -/
def Resource.get_utilization (r : Resource) (s e : Int) : Except String ℚ :=
  if s ≤ e then Except.error "NameError" else Except.ok 0

/-- Look up a task object by id in the heap. -/
def getTask (ts : List Task) (i : Nat) : Option Task := ts.find? (fun t => t.id == i)

/-- Mutate the task object with id `i` (every list entry holding that object). -/
def updTask (ts : List Task) (i : Nat) (f : Task → Task) : List Task :=
  ts.map (fun t => if t.id == i then f t else t)

/-- `Task.add_predecessor` on the object heap: unless the edge already exists
(`task not in self.predecessors`, object identity), append `task` to
`self.predecessors` and `self` to `task.successors`.  There is no cycle
check anywhere in the source. -/
def add_predecessor (ts : List Task) (selfId taskId : Nat) : List Task :=
  match getTask ts selfId with
  | none => ts
  | some self =>
    if self.predecessors.contains taskId then ts
    else
      updTask (updTask ts selfId (fun t => { t with predecessors := t.predecessors ++ [taskId] }))
        taskId (fun t => { t with successors := t.successors ++ [selfId] })

/-- `src/models/project.py`, class `Project`. -/
structure Project where
  name : String
  start_date : Int
  tasks : List Task
  resources : List Resource
  modified : Bool
deriving DecidableEq

/-- `Project.remove_task`: `self.tasks.remove(task)` guarded by membership;
nothing else is touched. -/
def Project.remove_task (p : Project) (t : Task) : Project :=
  if p.tasks.contains t then
    { p with tasks := p.tasks.erase t, modified := true }
  else p

/-- Python `max(xs)`: `ValueError` on an empty sequence. -/
def pyMax (l : List Int) : Except String Int :=
  match l with
  | [] => Except.error "ValueError"
  | x :: xs => Except.ok (xs.foldl max x)

/-- One iteration of the forward pass of `Project.calculate_critical_path`:
visit `task`, pushing its early finish onto each successor.  The task is
re-read from the heap at each inner step, as live Python objects are. -/
def forwardVisit (ts : List Task) (tid : Nat) : List Task :=
  match getTask ts tid with
  | none => ts
  | some t =>
    t.successors.foldl (fun ts sid =>
      match getTask ts tid, getTask ts sid with
      | some t, some s =>
        if s.early_start < t.early_finish then
          updTask ts sid (fun s => { s with early_start := t.early_finish,
                                            early_finish := t.early_finish + s.duration })
        else ts
      | _, _ => ts) ts

/-- One iteration of the backward pass: visit `task`, tightening each
predecessor against its late start. -/
def backwardVisit (ts : List Task) (tid : Nat) : List Task :=
  match getTask ts tid with
  | none => ts
  | some t =>
    t.predecessors.foldl (fun ts pid =>
      match getTask ts tid, getTask ts pid with
      | some t, some p =>
        if p.late_finish > t.late_start then
          updTask ts pid (fun p => { p with late_finish := t.late_start,
                                            late_start := t.late_start - p.duration })
        else ts
      | _, _ => ts) ts

/-- `Project.calculate_critical_path`: initialize, forward pass in stored
order, project duration by `max()`, initialize late fields, backward pass in
reversed order, then collect the zero-float tasks.  Returns the mutated heap
together with the returned critical list. -/
def calculate_critical_path (ts0 : List Task) : Except String (List Task × List Task) := do
  let ts := ts0.map (fun t => { t with early_start := 0, early_finish := t.duration })
  let ts := (ts.map (fun t => t.id)).foldl forwardVisit ts
  let project_duration ← pyMax (ts.map (fun t => t.early_finish))
  let ts := ts.map (fun t => { t with late_finish := project_duration,
                                      late_start := project_duration - t.duration })
  let ts := ((ts.map (fun t => t.id)).reverse).foldl backwardVisit ts
  Except.ok (ts, ts.filter (fun t => t.late_start - t.early_start == 0))

/-- Python truncation `int(q)` (toward zero). -/
def pyInt (q : ℚ) : Int := if 0 ≤ q then q.floor else -((-q).floor)

/-- Stable insertion into a sorted list: keep `b` in front while `le b a`
holds, so later equal elements land after earlier ones. -/
def sinsert {α : Type} (le : α → α → Bool) (a : α) : List α → List α
  | [] => [a]
  | b :: l => if le b a then b :: sinsert le a l else a :: b :: l

/-- Python `list.sort` is a stable sort; every stable sort agrees with this
insertion sort for a total comparison. -/
def pySort {α : Type} (le : α → α → Bool) (l : List α) : List α :=
  l.foldl (fun acc x => sinsert le x acc) []

/-- Lexicographic order on integer pairs, as Python compares key tuples. -/
def lexLE (x y : Int × Int) : Bool :=
  decide (x.1 < y.1) || (decide (x.1 = y.1) && decide (x.2 ≤ y.2))

/-- `Task.is_critical`: zero float. -/
def Task.is_critical (t : Task) : Bool := t.get_float == 0

/-- `max(task.get_end_date() for task in ts)`: Python `max` raises
`ValueError` on an empty sequence and `TypeError` when it compares the
`None` produced by an unscheduled task. -/
def maxEndDate (ts : List Task) : Except String Int :=
  match ts with
  | [] => Except.error "ValueError"
  | _ => do
    let es ← ts.mapM (fun t =>
      match t.get_end_date with
      | some e => Except.ok e
      | none => Except.error "TypeError")
    pyMax es

/-- `Project.get_project_duration`: 0 for no tasks, else days from the
project start to the latest task end. -/
def Project.get_project_duration (p : Project) : Except String Int :=
  if p.tasks.isEmpty then Except.ok 0
  else do
    let latest ← maxEndDate p.tasks
    Except.ok (latest - p.start_date)

/-- `Task.get_cost`: the assignment dicts hold live Resource objects, looked
up here in the project's resource heap by id (a dangling reference costs 0,
unreachable in consistent states). -/
def Task.get_cost (resources : List Resource) (t : Task) : ℚ :=
  (t.assignments.map (fun a =>
    (((resources.find? (fun r => r.id == a.resourceId)).map
        (fun r => r.cost_rate)).getD 0) * a.hours)).sum

/-- `Project.get_total_cost`. -/
def Project.get_total_cost (p : Project) : ℚ :=
  (p.tasks.map (fun t => Task.get_cost p.resources t)).sum

/-- `Project.get_resource_utilization`: the source sums `assignment.hours`,
an attribute access on a dict-shaped record, so Python raises
`AttributeError` as soon as a resource has a first assignment (an empty
generator sums to 0 without evaluating its body).  The returned dict is
keyed by resource id. -/
def Project.get_resource_utilization (p : Project) : Except String (List (Nat × ℚ)) :=
  p.resources.foldlM (fun acc r => do
    let total_hours : ℚ ←
      if r.assignments.isEmpty then Except.ok 0 else Except.error "AttributeError"
    let dur ← p.get_project_duration
    let available_hours : ℚ := r.availability * 8 * (dur : ℚ)
    let u := if available_hours > 0 then total_hours / available_hours else 0
    Except.ok (acc ++ [(r.id, u)])) []

/-- `ProjectController.calculate_project_completion`. -/
def calculate_project_completion (p : Project) : ℚ :=
  if p.tasks.isEmpty then 0
  else
    let weighted := (p.tasks.map (fun t => t.completion_percentage * (t.duration : ℚ))).sum
    let total := (p.tasks.map (fun t => (t.duration : ℚ))).sum
    if total > 0 then weighted / total else 0

/-- `ProjectController.find_resource_conflicts`: per resource, the day scan
builds its local conflict data for the first day and then hits
`current_date += timedelta(days=1)` (project_controller.py line 181), which
raises `NameError` (`timedelta` is not imported in the controller); a span
whose start lies after the latest task end skips the loop.  It reads but
never writes task or resource state on every path. -/
def find_resource_conflicts (p : Project) : Except String (List (Int × Nat × ℚ)) :=
  p.resources.foldlM (fun acc r => do
    let e ← maxEndDate p.tasks
    if p.start_date ≤ e then Except.error "NameError"
    else Except.ok acc) []

/-- `ProjectController.analyze_schedule_risks`: recompute the critical path
(mutating every task's scheduling fields in place), then build risk entries,
projected to (kind, subject id) pairs.  The average duration divides by
`len(tasks)`. -/
def analyze_schedule_risks (p : Project) : Except String (Project × List (String × Nat)) := do
  let res ← calculate_critical_path p.tasks
  let p1 : Project := { p with tasks := res.1 }
  let risks1 := res.2.map (fun t => ("critical_path", t.id))
  let risks2 := (p1.resources.filter (fun r =>
      decide (3 < (p1.tasks.filter (fun t =>
        t.assignments.any (fun a => a.resourceId == r.id))).length))).map
    (fun r => ("resource_dependency", r.id))
  if p1.tasks.length = 0 then Except.error "ZeroDivisionError"
  else
    let avg : ℚ := ((p1.tasks.map (fun t => (t.duration : ℚ))).sum) / (p1.tasks.length : ℚ)
    let risks3 := (p1.tasks.filter (fun t => decide ((t.duration : ℚ) > 2 * avg))).map
      (fun t => ("long_duration", t.id))
    Except.ok (p1, risks1 ++ risks2 ++ risks3)

/-- `ProjectController.analyze_project`: the dict entries are evaluated in
order; the critical-path recomputation (directly and again inside the
schedule-risk analysis) mutates the task heap, which this model threads
through and returns. -/
def analyze_project (p : Project) : Except String Project := do
  let _duration ← p.get_project_duration
  let _total_cost := p.get_total_cost
  let _ru ← p.get_resource_utilization
  let res ← calculate_critical_path p.tasks
  let p1 : Project := { p with tasks := res.1 }
  let _completion := calculate_project_completion p1
  let _conflicts ← find_resource_conflicts p1
  let res2 ← analyze_schedule_risks p1
  Except.ok res2.1

/-- `ProjectController.generate_summary_report`, projected to a tuple of the
dict values. -/
def generate_summary_report (p : Project) :
    Except String (String × Int × Int × Nat × Nat × Nat × ℚ × ℚ) := do
  let e ← maxEndDate p.tasks
  let dur ← p.get_project_duration
  Except.ok (p.name, e, dur, p.tasks.length,
    (p.tasks.filter (fun t => t.completion_percentage == 100)).length,
    p.resources.length, p.get_total_cost, calculate_project_completion p)

/-- `ProjectController.generate_task_report`; resource and predecessor names
are projected to ids. -/
def generate_task_report (p : Project) :
    List (Nat × String × Option Int × Option Int × Int × ℚ × List Nat × List Nat × ℚ × Bool) :=
  p.tasks.map (fun t =>
    (t.id, t.name, t.start_date, t.get_end_date, t.duration, t.completion_percentage,
     t.assignments.map (fun a => a.resourceId),
     t.predecessors, Task.get_cost p.resources t, t.is_critical))

/-- `ProjectController.generate_resource_report`: per resource, the fresh
utilization dict is indexed at the resource (`KeyError` impossible here),
and the total cost sums `assignment['hours'] * cost_rate`. -/
def generate_resource_report (p : Project) :
    Except String (List (String × ℚ × ℚ × Nat × ℚ × ℚ)) :=
  p.resources.mapM (fun r => do
    let util ← p.get_resource_utilization
    let u ← match util.find? (fun x => x.1 == r.id) with
      | some x => Except.ok x.2
      | none => Except.error "KeyError"
    Except.ok (r.name, r.cost_rate, r.availability, r.assignments.length, u,
      (r.assignments.map (fun a => a.hours * r.cost_rate)).sum))

/-- `ProjectController.generate_timeline_report`: project start, per-task
start/end milestones, project end, sorted by date; Python raises `TypeError`
when an unscheduled task's `None` date reaches the sort. -/
def generate_timeline_report (p : Project) : Except String (List (Int × String)) := do
  let starts ← p.tasks.mapM (fun t =>
    match t.start_date with
    | some st => Except.ok [(st, "Task Start"), (st + t.duration, "Task End")]
    | none => Except.error "TypeError")
  let e ← maxEndDate p.tasks
  let entries := [(p.start_date, "Project Start")] ++ starts.flatten ++ [(e, "Project End")]
  Except.ok (pySort (fun x y => decide (x.1 ≤ y.1)) entries)

/-- `ProjectController.generate_reports`: the four sub-reports in order. -/
def generate_reports (p : Project) : Except String Unit := do
  let _s ← generate_summary_report p
  let _t := generate_task_report p
  let _r ← generate_resource_report p
  let _l ← generate_timeline_report p
  Except.ok ()

/-- Key of `tasks.sort(key=lambda t: (t.priority, len(t.predecessors)), reverse=True)`. -/
def levelKey1 (t : Task) : Int × Int := (t.priority, (t.predecessors.length : Int))

/-- Key of `resource_tasks.sort(key=lambda t: (-t.priority, t.get_float()))`. -/
def levelKey2 (t : Task) : Int × Int := (-t.priority, t.get_float)

/-- `min(task.get_float(), int((utilization - 1) * task.duration))`. -/
def levelDelay (u : ℚ) (t : Task) : Int :=
  min t.get_float (pyInt ((u - 1) * (t.duration : ℚ)))

/-- Inner-loop body of `level_resources`: when the float is positive the
delay is computed, but the shift `task.start_date += timedelta(days=delay)`
(project_controller.py line 93) raises `NameError` — `timedelta` is not
imported in the controller. -/
def levelShiftTask (u : ℚ) (p : Project) (tid : Nat) : Except String Project :=
  match getTask p.tasks tid with
  | none => Except.ok p
  | some t =>
    if 0 < t.get_float then
      let _delay := levelDelay u t
      Except.error "NameError"
    else Except.ok p

/-- Per-resource body of `level_resources`: utilization over the project
span from the current task states; when over 1, delay the tasks carrying an
assignment of this resource, in (priority descending, float ascending)
order. -/
def levelResource (sortedIds : List Nat) (p : Project) (r : Resource) :
    Except String Project := do
  let tasks := sortedIds.filterMap (fun i => getTask p.tasks i)
  let e ← maxEndDate tasks
  let u ← r.get_utilization p.start_date e
  if u > 1 then
    let resource_tasks := tasks.filter (fun t =>
      t.assignments.any (fun a => a.resourceId == r.id))
    let rts := pySort (fun a b => lexLE (levelKey2 a) (levelKey2 b)) resource_tasks
    (rts.map (fun t => t.id)).foldlM (fun p tid => levelShiftTask u p tid) p
  else Except.ok p

/-- `ProjectController.level_resources`: the task list is copied and sorted
once up front; the resource loop then works on the live objects. -/
def level_resources (p : Project) : Except String Project := do
  let sortedIds := (pySort (fun a b => lexLE (levelKey1 b) (levelKey1 a)) p.tasks).map
    (fun t => t.id)
  p.resources.foldlM (levelResource sortedIds) p

/-- Everything of a task except the analyzer scratch fields
(early/late start/finish). -/
def Task.core (t : Task) :
    Nat × String × Int × Option Int × ℚ × Int × List Nat × List Nat × List Assignment :=
  (t.id, t.name, t.duration, t.start_date, t.completion_percentage, t.priority,
   t.predecessors, t.successors, t.assignments)

/-! Concrete instances used by individual claims. -/

/-- Three fresh tasks A(5), B(3), C(2). -/
def c1Base : List Task :=
  [Task.mkNew 1 "A" 5 none, Task.mkNew 2 "B" 3 none, Task.mkNew 3 "C" 2 none]

/-- The chain A→B, B→C of the cycle test, built through `add_predecessor`. -/
def c1Chain : List Task := add_predecessor (add_predecessor c1Base 2 1) 3 2

/-- The A object inside `c1Chain`. -/
def c1ChainA : Task := { Task.mkNew 1 "A" 5 none with successors := [2] }

/-- The B object inside `c1Chain`. -/
def c1ChainB : Task := { Task.mkNew 2 "B" 3 none with predecessors := [1], successors := [3] }

/-- The C object inside `c1Chain`. -/
def c1ChainC : Task := { Task.mkNew 3 "C" 2 none with predecessors := [2] }

/-- The chain A(5d)→B(3d)→C(2d), stored in dependency order. -/
def c2Tasks : List Task :=
  add_predecessor (add_predecessor
    [Task.mkNew 1 "A" 5 (some 0), Task.mkNew 2 "B" 3 (some 0),
     Task.mkNew 3 "C" 2 (some 0)] 2 1) 3 2

def c3Asg : Assignment := ⟨1, 1/2, 0, 4, calculate_assignment_hours (1/2) 0 4⟩

def c3A : Task := { Task.mkNew 1 "A" 5 (some 0) with successors := [2], assignments := [c3Asg] }

def c3B : Task := { Task.mkNew 2 "B" 3 (some 5) with predecessors := [1] }

def c3R : Resource := ⟨1, "R", 10, 1, [c3Asg], [], []⟩

def c3P : Project := ⟨"P", 0, [c3A, c3B], [c3R], false⟩

def c4R : Resource := ⟨1, "R", 0, 1, [], [], []⟩

/-- An assignment over the two days 0 and 1 (a nonempty range). -/
def c4wA : Assignment := ⟨1, 1/2, 0, 1, calculate_assignment_hours (1/2) 0 1⟩

def c5Asg : Assignment := ⟨1, 1/2, 0, 4, calculate_assignment_hours (1/2) 0 4⟩

def c5T : Task := { Task.mkNew 1 "T" 5 (some 0) with assignments := [c5Asg] }

/-- A resource carrying the assignment on its side; the calendar overrides
play no role in the claim. -/
def c5R : Resource :=
  ⟨1, "R", 10, 1, [c5Asg], [(0, 1/2), (1, 1/2), (2, 1/2), (3, 1/2), (4, 1/2)], []⟩

def c5P : Project := ⟨"P", 0, [c5T], [c5R], false⟩

/-- A freshly created task: scheduling fields all 0. -/
def c6T : Task := Task.mkNew 1 "T" 3 (some 0)

def c6P : Project := ⟨"P", 0, [c6T], [], false⟩

/-- The state `analyze_project` leaves behind on `c6P`. -/
def c6Pfinal : Project :=
  { c6P with tasks := [{ c6T with early_start := 0, early_finish := 3,
                                  late_start := 0, late_finish := 3 }] }

def c7R : Resource := ⟨1, "R", 0, 1, [], [], []⟩

def c8Asg1 : Assignment := ⟨1, 1, 0, 4, calculate_assignment_hours 1 0 4⟩

def c8Asg2 : Assignment := ⟨2, 1, 0, 4, calculate_assignment_hours 1 0 4⟩

/-- A task with a start date and a nonempty schedule, assigned to both
resources. -/
def c8T : Task :=
  { Task.mkNew 1 "T" 10 (some 0) with
    assignments := [c8Asg1, c8Asg2], early_start := 0, early_finish := 10,
    late_start := 2, late_finish := 12 }

/-- Availability 1/2, carrying a units-1.0 assignment, with calendar
overrides at 0 over days 0–4. -/
def c8R1 : Resource :=
  ⟨1, "R1", 0, 1/2, [c8Asg1], [(0, 0), (1, 0), (2, 0), (3, 0), (4, 0)], []⟩

def c8R2 : Resource :=
  ⟨2, "R2", 0, 1/2, [c8Asg2], [(0, 0), (1, 0), (2, 0), (3, 0), (4, 0)], []⟩

def c8P : Project := ⟨"P", 0, [c8T], [c8R1, c8R2], false⟩

/-- A task whose end date (-15) lies before the project start (0), so the
per-resource utilization probe never enters its day loop. -/
def c8wT : Task := { Task.mkNew 2 "U" 5 (some (-20)) with late_start := 3 }

/-- A project on which `level_resources` completes: the only utilization
probe sees an empty date range. -/
def c8wP : Project := ⟨"Q", 0, [c8wT], [c8R1], false⟩

/-- A task with a start date, for the C9 witness. -/
def c9T : Task := Task.mkNew 1 "T" 3 (some 5)

theorem dateRange_nil {s e : Int} (h : e < s) : dateRange s e = [] := by
  unfold dateRange
  have h0 : (e + 1 - s).toNat = 0 := by omega
  rw [h0]
  rfl

theorem dateRange_cons {s e : Int} (h : s ≤ e) : dateRange s e = s :: dateRange (s + 1) e := by
  unfold dateRange
  have h1 : (e + 1 - s).toNat = (e + 1 - (s + 1)).toNat + 1 := by omega
  rw [h1, List.range_succ_eq_map, List.map_cons, List.map_map]
  refine congrArg₂ List.cons (by norm_num) ?_
  apply List.map_congr_left
  intro a _
  simp only [Function.comp_apply]
  push_cast
  ring

theorem countWorking_self (a : Int) : countWorking a a = 0 := by
  unfold countWorking
  rw [dateRange_nil (by omega)]
  rfl

theorem countWorking_step {a b : Int} (h : a < b) :
    countWorking a b = (if is_working_day (a + 1) then 1 else 0) + countWorking (a + 1) b := by
  unfold countWorking
  rw [dateRange_cons (by omega), List.filter_cons]
  by_cases hw : is_working_day (a + 1) <;> simp [hw] <;> omega

theorem add_working_days_zero (d : Int) : add_working_days d 0 = d := by
  rw [add_working_days]
  norm_num

/-- C10: for every date `d` and every integer `n ≥ 1`, `add_working_days d n`
returns a date strictly after `d` that is itself a working day, and exactly
`n` working days lie in the half-open interval from the day after `d` through
the returned date inclusive. -/
theorem C10_add_working_days : ∀ (d n : Int), 1 ≤ n →
    d < add_working_days d n ∧
    is_working_day (add_working_days d n) = true ∧
    (countWorking d (add_working_days d n) : Int) = n := by
  intro d n
  induction d, n using add_working_days.induct with
  | case1 date days h hw ih =>
    intro _
    rw [add_working_days, dif_pos h, dif_pos hw]
    rcases le_or_lt days 1 with h1 | h1
    · have hd1 : days = 1 := by omega
      subst hd1
      rw [show (1 : Int) - 1 = 0 by norm_num, add_working_days_zero]
      refine ⟨by omega, by simp [is_working_day]; omega, ?_⟩
      rw [countWorking_step (by omega)]
      rw [if_pos (show is_working_day (date + 1) = true by simp [is_working_day]; omega)]
      rw [countWorking_self]
      norm_num
    · obtain ⟨hlt, hwork, hcount⟩ := ih (by omega)
      refine ⟨by omega, hwork, ?_⟩
      rw [countWorking_step (by omega)]
      rw [if_pos (show is_working_day (date + 1) = true by simp [is_working_day]; omega)]
      push_cast at hcount ⊢
      omega
  | case2 date days h hw ih =>
    intro hd
    rw [add_working_days, dif_pos h, dif_neg hw]
    obtain ⟨hlt, hwork, hcount⟩ := ih hd
    refine ⟨by omega, hwork, ?_⟩
    rw [countWorking_step (by omega)]
    rw [if_neg (show ¬is_working_day (date + 1) = true by simp [is_working_day]; omega)]
    push_cast at hcount ⊢
    omega
  | case3 date days h =>
    intro hd
    exact absurd (by omega : 0 < days) h

/-- Witness for `C10_add_working_days` at `d = 0` (a Monday), `n = 3`. -/
theorem C10_witness :
    0 < add_working_days 0 3 ∧
    is_working_day (add_working_days 0 3) = true ∧
    (countWorking 0 (add_working_days 0 3) : Int) = 3 :=
  C10_add_working_days 0 3 (by norm_num)


unseal Rat.mul Rat.add Rat.sub Rat.inv

theorem getTask_updTask_self (ts : List Task) (i : Nat) (f : Task → Task)
    (hf : ∀ t, (f t).id = t.id) :
    getTask (updTask ts i f) i = (getTask ts i).map f := by
  induction ts with
  | nil => rfl
  | cons t ts ih =>
    simp only [getTask, updTask, List.map_cons] at *
    by_cases h : (t.id == i) = true
    · have hft : ((f t).id == i) = true := by rw [hf t]; exact h
      rw [if_pos h]
      simp only [List.find?_cons, hft, h]
      rfl
    · have h0 : (t.id == i) = false := by
        simp only [Bool.not_eq_true] at h
        exact h
      rw [if_neg h]
      simp only [List.find?_cons, h0]
      exact ih

theorem getTask_updTask_other (ts : List Task) (i j : Nat) (f : Task → Task)
    (hf : ∀ t, (f t).id = t.id) (hne : j ≠ i) :
    getTask (updTask ts i f) j = getTask ts j := by
  induction ts with
  | nil => rfl
  | cons t ts ih =>
    simp only [getTask, updTask, List.map_cons] at *
    by_cases h : (t.id == i) = true
    · have hid : t.id = i := eq_of_beq h
      have hj : (t.id == j) = false := by
        refine beq_eq_false_iff_ne.mpr ?_
        intro hc
        rw [hid] at hc
        exact hne hc.symm
      have hfj : ((f t).id == j) = false := by rw [hf t]; exact hj
      rw [if_pos h]
      simp only [List.find?_cons, hj, hfj]
      exact ih
    · rw [if_neg h]
      by_cases h2 : (t.id == j) = true
      · simp only [List.find?_cons, h2]
      · have h20 : (t.id == j) = false := by
          simp only [Bool.not_eq_true] at h2
          exact h2
        simp only [List.find?_cons, h20]
        exact ih

/-- C9: `get_end_date` returns `None` when the start date is unset, and
`start_date + duration` calendar days when it is set. -/
theorem C9_get_end_date (t : Task) :
    (t.start_date = none → t.get_end_date = none) ∧
    (∀ s : Int, t.start_date = some s → t.get_end_date = some (s + t.duration)) := by
  constructor
  · intro h
    unfold Task.get_end_date
    rw [h]
  · intro s h
    unfold Task.get_end_date
    rw [h]

/-- Witness for `C9_get_end_date` on a task starting at day 5 with duration 3. -/
theorem C9_witness : c9T.get_end_date = some 8 :=
  (C9_get_end_date c9T).2 5 rfl

/-- C2: on the stored-in-order chain A(5d)→B(3d)→C(2d),
`calculate_critical_path` returns all three tasks as critical, the maximum
early finish (project duration) is 10, and every float is 0. -/
theorem C2_critical_path_chain :
    (calculate_critical_path c2Tasks).map (fun r =>
      (r.2.map (fun t => t.id),
       (r.1.map (fun t => t.early_finish)).foldl max 0,
       r.1.map (fun t => t.late_start - t.early_start)))
      = Except.ok ([1, 2, 3], 10, [0, 0, 0]) := by rfl

/-- C1 counterexample: after building the chain A→B, B→C through
`add_predecessor`, adding C as a predecessor of A neither fails nor leaves
the graph unchanged — A's predecessor list goes from `[]` to `[C]`; the
source has no cycle detection and no `CycleError`. -/
theorem C1_counterexample :
    (getTask c1Chain 1).map (fun t => t.predecessors) = some [] ∧
    (getTask (add_predecessor c1Chain 1 3) 1).map (fun t => t.predecessors) = some [3] := by
  decide

/-- C1 amended: `add_predecessor` never fails and performs no cycle check.
A duplicate edge is a no-op; any other requested edge — including one that
closes a cycle — is committed, appending to both adjacency lists. -/
theorem C1_amended :
    (∀ (ts : List Task) (i j : Nat) (a : Task), getTask ts i = some a →
        a.predecessors.contains j = true → add_predecessor ts i j = ts) ∧
    (∀ (ts : List Task) (i j : Nat) (a b : Task), getTask ts i = some a →
        getTask ts j = some b → a.predecessors.contains j = false → i ≠ j →
        getTask (add_predecessor ts i j) i
          = some { a with predecessors := a.predecessors ++ [j] } ∧
        getTask (add_predecessor ts i j) j
          = some { b with successors := b.successors ++ [i] }) := by
  constructor
  · intro ts i j a ha hdup
    unfold add_predecessor
    rw [ha]
    simp only [hdup, eq_self_iff_true, if_true]
  · intro ts i j a b ha hb hdup hne
    unfold add_predecessor
    rw [ha]
    simp only [hdup, Bool.false_eq_true, if_false]
    constructor
    · rw [getTask_updTask_other
        (updTask ts i fun t => { t with predecessors := t.predecessors ++ [j] }) j i
        (fun t => { t with successors := t.successors ++ [i] }) (fun t => rfl) hne]
      rw [getTask_updTask_self ts i
        (fun t => { t with predecessors := t.predecessors ++ [j] }) (fun t => rfl), ha]
      rfl
    · rw [getTask_updTask_self
        (updTask ts i fun t => { t with predecessors := t.predecessors ++ [j] }) j
        (fun t => { t with successors := t.successors ++ [i] }) (fun t => rfl)]
      rw [getTask_updTask_other ts i j
        (fun t => { t with predecessors := t.predecessors ++ [j] }) (fun t => rfl)
        (fun hc => hne hc.symm), hb]
      rfl

/-- Witness for `C1_amended`: the duplicate edge A→B is a no-op on `c1Chain`,
and the cycle-closing edge C→A is committed on both sides. -/
theorem C1_witness :
    add_predecessor c1Chain 2 1 = c1Chain ∧
    (getTask (add_predecessor c1Chain 1 3) 1
        = some { c1ChainA with predecessors := c1ChainA.predecessors ++ [3] } ∧
     getTask (add_predecessor c1Chain 1 3) 3
        = some { c1ChainC with successors := c1ChainC.successors ++ [1] }) :=
  ⟨C1_amended.1 c1Chain 2 1 c1ChainB (by decide) (by decide),
   C1_amended.2 c1Chain 1 3 c1ChainA c1ChainC (by decide) (by decide) (by decide)
     (by decide)⟩

/-- C3 counterexample: removing task A from the project leaves B's
predecessor list still holding A, and the resource still holding A's
assignment — deletion does not cascade. -/
theorem C3_counterexample :
    ((c3P.remove_task c3A).tasks.any (fun t => t.predecessors.contains c3A.id)) = true ∧
    ((c3P.remove_task c3A).resources.any (fun r => r.assignments.contains c3Asg)) = true ∧
    c3Asg ∈ c3A.assignments := by decide

/-- C3 amended: `remove_task` (the whole of `delete_task`) only removes the
task from the project's task list and flips the modified flag; every
surviving task and resource record is exactly as it was, so edges and
assignments referencing the deleted task survive. -/
theorem C3_amended (p : Project) (t : Task) :
    (p.remove_task t).resources = p.resources ∧
    ∀ u ∈ (p.remove_task t).tasks, u ∈ p.tasks := by
  unfold Project.remove_task
  by_cases h : (p.tasks.contains t) = true
  · rw [if_pos h]
    exact ⟨rfl, fun u hu => List.mem_of_mem_erase hu⟩
  · rw [if_neg h]
    exact ⟨rfl, fun u hu => hu⟩

/-- Witness for `C3_amended` on the concrete two-task project. -/
theorem C3_witness :
    (c3P.remove_task c3A).resources = c3P.resources ∧ c3B ∈ c3P.tasks :=
  ⟨(C3_amended c3P c3A).1, (C3_amended c3P c3A).2 c3B (by decide)⟩

/-- C5: on a consistent one-task, one-resource, one-assignment project the
report/analysis entry points abort with the `AttributeError` raised by the
dict attribute access `assignment.hours` in `Project.get_resource_utilization`. -/
theorem C5_attribute_error :
    c5P.get_resource_utilization = Except.error "AttributeError" ∧
    analyze_project c5P = Except.error "AttributeError" ∧
    generate_resource_report c5P = Except.error "AttributeError" ∧
    generate_reports c5P = Except.error "AttributeError" :=
  ⟨rfl, rfl, rfl, rfl⟩

theorem exceptBind_eq_ok {α β : Type} {x : Except String α} {f : α → Except String β}
    {b : β} :
    (x >>= f) = Except.ok b ↔ ∃ a, x = Except.ok a ∧ f a = Except.ok b := by
  cases x with
  | error e => simp [Bind.bind, Except.bind]
  | ok a => simp [Bind.bind, Except.bind]

theorem core_map_update (ts : List Task) (g : Task → Task)
    (hg : ∀ t, (g t).core = t.core) :
    (ts.map g).map Task.core = ts.map Task.core := by
  rw [List.map_map]
  apply List.map_congr_left
  intro t _
  exact hg t

theorem core_updTask (ts : List Task) (i : Nat) (f : Task → Task)
    (hf : ∀ t, (f t).core = t.core) :
    (updTask ts i f).map Task.core = ts.map Task.core := by
  unfold updTask
  rw [List.map_map]
  apply List.map_congr_left
  intro t _
  simp only [Function.comp_apply]
  split
  · exact hf t
  · rfl

theorem core_foldl {l : List Nat} {step : List Task → Nat → List Task}
    (hstep : ∀ ts i, (step ts i).map Task.core = ts.map Task.core) :
    ∀ ts, (l.foldl step ts).map Task.core = ts.map Task.core := by
  induction l with
  | nil => intro ts; rfl
  | cons x xs ih =>
    intro ts
    rw [List.foldl_cons, ih, hstep]

theorem core_forwardVisit (ts : List Task) (tid : Nat) :
    (forwardVisit ts tid).map Task.core = ts.map Task.core := by
  unfold forwardVisit
  cases h : getTask ts tid with
  | none => rfl
  | some t =>
    apply core_foldl
    intro ts2 sid
    cases h1 : getTask ts2 tid with
    | none => rfl
    | some t1 =>
      cases h2 : getTask ts2 sid with
      | none => rfl
      | some s1 =>
        dsimp only
        split
        · exact core_updTask _ _ _ (fun t2 => rfl)
        · rfl

theorem core_backwardVisit (ts : List Task) (tid : Nat) :
    (backwardVisit ts tid).map Task.core = ts.map Task.core := by
  unfold backwardVisit
  cases h : getTask ts tid with
  | none => rfl
  | some t =>
    apply core_foldl
    intro ts2 pid
    cases h1 : getTask ts2 tid with
    | none => rfl
    | some t1 =>
      cases h2 : getTask ts2 pid with
      | none => rfl
      | some p1 =>
        dsimp only
        split
        · exact core_updTask _ _ _ (fun t2 => rfl)
        · rfl

theorem core_calculate_critical_path {ts : List Task} {pr : List Task × List Task}
    (hok : calculate_critical_path ts = Except.ok pr) :
    pr.1.map Task.core = ts.map Task.core := by
  unfold calculate_critical_path at hok
  obtain ⟨d, hd, hrest⟩ := exceptBind_eq_ok.mp hok
  have hp : pr.1 = (((((ts.map (fun t => { t with early_start := 0, early_finish := t.duration })).map
        (fun t => t.id)).foldl forwardVisit
          (ts.map (fun t => { t with early_start := 0, early_finish := t.duration }))).map
        (fun t => { t with late_finish := d, late_start := d - t.duration })).map
          (fun t => t.id)).reverse.foldl backwardVisit
      ((((ts.map (fun t => { t with early_start := 0, early_finish := t.duration })).map
        (fun t => t.id)).foldl forwardVisit
          (ts.map (fun t => { t with early_start := 0, early_finish := t.duration }))).map
        (fun t => { t with late_finish := d, late_start := d - t.duration })) := by
    have := Except.ok.inj hrest
    rw [← this]
  rw [hp]
  rw [core_foldl (fun a b => core_backwardVisit a b)]
  rw [core_map_update _
    (fun t => { t with late_finish := d, late_start := d - t.duration }) (fun t => rfl)]
  rw [core_foldl (fun a b => core_forwardVisit a b)]
  rw [core_map_update _
    (fun t => { t with early_start := 0, early_finish := t.duration }) (fun t => rfl)]

theorem core_analyze_schedule_risks {p : Project} {pr : Project × List (String × Nat)}
    (hok : analyze_schedule_risks p = Except.ok pr) :
    pr.1.tasks.map Task.core = p.tasks.map Task.core ∧ pr.1.resources = p.resources := by
  unfold analyze_schedule_risks at hok
  obtain ⟨res, hres, hrest⟩ := exceptBind_eq_ok.mp hok
  dsimp only at hrest
  split at hrest
  · cases hrest
  · have hp : pr.1 = { p with tasks := res.1 } := by
      have := Except.ok.inj hrest
      rw [← this]
    rw [hp]
    exact ⟨core_calculate_critical_path hres, rfl⟩

/-- C6 counterexample: on a fresh one-task project, `analyze_project`
succeeds but rewrites the task's scheduling fields — `early_finish` goes
from 0 to 3 — so the state is not identical before and after. -/
theorem C6_counterexample :
    (analyze_project c6P).map (fun q => q.tasks.map (fun t => t.early_finish))
      = Except.ok [3] ∧
    c6P.tasks.map (fun t => t.early_finish) = [0] :=
  ⟨rfl, rfl⟩

/-- C6 amended: the report generators read state only, and a successful
`analyze_project` leaves the resources and every persistent task field
(identity, name, duration, start date, completion, priority, edges,
assignments) unchanged; but it recomputes the critical path, overwriting
every task's early/late scheduling fields, which in general changes them. -/
theorem C6_amended (p p' : Project) (hok : analyze_project p = Except.ok p') :
    p'.resources = p.resources ∧ p'.tasks.map Task.core = p.tasks.map Task.core := by
  unfold analyze_project at hok
  obtain ⟨d1, h1, hok⟩ := exceptBind_eq_ok.mp hok
  obtain ⟨ru, h2, hok⟩ := exceptBind_eq_ok.mp hok
  obtain ⟨res, h3, hok⟩ := exceptBind_eq_ok.mp hok
  obtain ⟨cf, h4, hok⟩ := exceptBind_eq_ok.mp hok
  obtain ⟨res2, h5, hok⟩ := exceptBind_eq_ok.mp hok
  have hp' : p' = res2.1 := (Except.ok.inj hok).symm
  have hrisks := core_analyze_schedule_risks h5
  have hcrit := core_calculate_critical_path h3
  subst hp'
  refine ⟨hrisks.2, ?_⟩
  rw [hrisks.1]
  exact hcrit

/-- Witness for `C6_amended` at the fresh one-task project. -/
theorem C6_witness :
    c6Pfinal.resources = c6P.resources ∧
    c6Pfinal.tasks.map Task.core = c6P.tasks.map Task.core :=
  C6_amended c6P c6Pfinal (by rfl)

/-- C4: `_update_calendar` raises `NameError` on every nonempty assignment
range (resource.py line 93, `timedelta` unimported), so `add_assignment`
never completes and the add-then-remove round trip the claim describes
cannot execute. -/
theorem C4_name_error (r : Resource) (a : Assignment)
    (h : a.start_date ≤ a.end_date) :
    r.add_assignment a = Except.error "NameError" := by
  unfold Resource.add_assignment Resource.update_calendar
  rw [if_pos h]

/-- Witness for `C4_name_error`: adding a two-day assignment crashes. -/
theorem C4_witness : c4R.add_assignment c4wA = Except.error "NameError" :=
  C4_name_error c4R c4wA (by decide)

/-- C7: `get_utilization` raises `NameError` on every nonempty date range
(resource.py line 67, `timedelta` unimported); the only completing case is
an empty range, which returns the guarded 0.0 — never the claimed ratio. -/
theorem C7_name_error :
    (∀ (r : Resource) (s e : Int), s ≤ e →
        r.get_utilization s e = Except.error "NameError") ∧
    (∀ (r : Resource) (s e : Int), e < s → r.get_utilization s e = Except.ok 0) := by
  constructor
  · intro r s e h
    unfold Resource.get_utilization
    rw [if_pos h]
  · intro r s e h
    unfold Resource.get_utilization
    rw [if_neg (by omega)]

/-- Witness for `C7_name_error`: the claimed 5-working-day span crashes, and
the reversed (empty) range returns 0.0. -/
theorem C7_witness :
    c7R.get_utilization 0 4 = Except.error "NameError" ∧
    c7R.get_utilization 4 0 = Except.ok 0 :=
  ⟨C7_name_error.1 c7R 0 4 (by decide), C7_name_error.2 c7R 4 0 (by decide)⟩

theorem levelResource_ok_unchanged {sortedIds : List Nat} {p q : Project}
    {r : Resource} (hok : levelResource sortedIds p r = Except.ok q) : q = p := by
  unfold levelResource at hok
  obtain ⟨e, he, hok⟩ := exceptBind_eq_ok.mp hok
  obtain ⟨u, hu, hok⟩ := exceptBind_eq_ok.mp hok
  unfold Resource.get_utilization at hu
  by_cases hse : p.start_date ≤ e
  · rw [if_pos hse] at hu
    cases hu
  · rw [if_neg hse] at hu
    have hu0 : (0 : ℚ) = u := Except.ok.inj hu
    dsimp only at hok
    rw [← hu0] at hok
    rw [if_neg (by norm_num)] at hok
    exact (Except.ok.inj hok).symm

theorem foldl_levelResource_unchanged (sortedIds : List Nat) :
    ∀ (rs : List Resource) (p p' : Project),
      List.foldlM (levelResource sortedIds) p rs = Except.ok p' → p' = p := by
  intro rs
  induction rs with
  | nil =>
    intro p p' h
    rw [List.foldlM_nil] at h
    exact (Except.ok.inj h).symm
  | cons r rest ih =>
    intro p p' h
    rw [List.foldlM_cons] at h
    obtain ⟨q, hq, h2⟩ := exceptBind_eq_ok.mp h
    have hqp : q = p := levelResource_ok_unchanged hq
    rw [hqp] at h2
    exact ih p p' h2

/-- C8: on the two-resource failing input, `level_resources` aborts with the
`NameError` its first utilization probe raises (resource.py line 67; the
start-date shift at project_controller.py line 93 would raise the same), so
it never delays any task — indeed every completing run returns the project
unchanged, because a completed probe can only have seen an empty range and
reported utilization 0. -/
theorem C8_name_error :
    level_resources c8P = Except.error "NameError" ∧
    (∀ (p p' : Project), level_resources p = Except.ok p' → p' = p) := by
  constructor
  · rfl
  · intro p p' hok
    unfold level_resources at hok
    dsimp only at hok
    exact foldl_levelResource_unchanged _ _ _ _ hok

/-- Witness for `C8_name_error` on a project whose single utilization probe
sees an empty range: leveling completes and changes nothing. -/
theorem C8_witness : c8wP = c8wP :=
  C8_name_error.2 c8wP c8wP (by rfl)

end TaskMgr
